import Mathlib

/-!
Verification of the TradeMaster authentication subsystem.

This file gives a shallow embedding of the server-side authentication code
(`auth.util.ts`, `jwt.util.ts`, `auth.ctrl.ts`, `user.ctrl.ts`/`user.util.ts`)
and of the client-side axios auth interceptor (`AuthInterceptor` plus the
`signout` reducer of `authSlice.ts`), and proves properties of the embedded
code.  Times are natural numbers: milliseconds for the reset-token registry
(`Date.now()`), seconds for JWT claims (`iat`/`exp`).  External collaborators
(bcrypt, the database row update, the axios transport) enter as function or
value parameters.  JavaScript string truthiness (`!x` is true for both
`undefined` and `""`) is modelled explicitly.
-/

set_option autoImplicit false

namespace TradeMaster

/-- Field values appearing in a serialized (JSON) user record. -/
inductive UVal where
  | s : String → UVal
  | n : Nat → UVal
deriving DecidableEq

/-- A serialized JSON object: an association list of fields, in insertion order. -/
abbrev JObj := List (String × UVal)

/-- JavaScript object field access: the value of key `k`, if present. -/
def lookupField (o : JObj) (k : String) : Option UVal :=
  match o with
  | [] => none
  | (k', v) :: rest => if k' = k then some v else lookupField rest k

/-- A row of the `users` table (Sequelize `User` model): id, firstname,
lastname, email, password (the stored bcrypt hash). -/
structure UserRec where
  id : Nat
  firstname : String
  lastname : String
  email : String
  password : String
deriving DecidableEq

/-- `user.toJSON()` on an instance loaded with all attributes. -/
def userToJSON (u : UserRec) : JObj :=
  [("id", .n u.id), ("firstname", .s u.firstname), ("lastname", .s u.lastname),
   ("email", .s u.email), ("password", .s u.password)]

/-- The destructuring `const \x7b password: _, ...userWithoutPassword \x7d = user.toJSON()`:
drops exactly the `password` key. -/
def omitPassword (o : JObj) : JObj :=
  o.filter (fun kv => kv.1 != "password")

/-- The users table. -/
abbrev UserTable := List UserRec

/-- `User.findOne(\x7bwhere: \x7bemail\x7d\x7d)`. -/
def findByEmail (users : UserTable) (email : String) : Option UserRec :=
  users.find? (fun u => u.email == email)

/-- `User.findByPk(userId)`. -/
def findById (users : UserTable) (uid : Nat) : Option UserRec :=
  users.find? (fun u => u.id == uid)

/-- A Sequelize model instance as returned by `getUserByEmailQuery`: the row
plus whether the `password` attribute was loaded (`includePassword`). -/
structure UserInstance where
  row : UserRec
  hasPassword : Bool
deriving DecidableEq

/-- `instance.toJSON()`: when the query excluded `password`, the serialized
object has no `password` field. -/
def instToJSON (i : UserInstance) : JObj :=
  if i.hasPassword then userToJSON i.row else omitPassword (userToJSON i.row)

/-- `getUserByEmailQuery(email, includePassword, userId)` from `auth.util.ts`:
`if (userId)` (JavaScript truthiness, so a defined nonzero id) looks up by
primary key, otherwise by email; `includePassword` controls whether the
`password` attribute is excluded. -/
def getUserByEmailQuery (users : UserTable) (email : String)
    (includePassword : Bool) (userId : Option Nat) : Option UserInstance :=
  if userId.getD 0 ≠ 0 then
    (findById users (userId.getD 0)).map (fun u => ⟨u, includePassword⟩)
  else
    (findByEmail users email).map (fun u => ⟨u, includePassword⟩)

/-- An entry of the in-memory reset-token map: `\x7buserId, expires\x7d`
(`expires` in milliseconds). -/
structure TokenData where
  userId : Nat
  expires : Nat
deriving DecidableEq

/-- The module-level `resetTokens : Map<string, \x7buserId, expires\x7d>`,
as an insertion-ordered association list with the JS `Map` operations below. -/
abbrev ResetTokenMap := List (String × TokenData)

/-- `Map.get`. -/
def mapGet (m : ResetTokenMap) (k : String) : Option TokenData :=
  match m with
  | [] => none
  | (k', v) :: rest => if k' = k then some v else mapGet rest k

/-- `Map.set`: replaces the value at an existing key in place, otherwise
appends the new entry. -/
def mapSet (m : ResetTokenMap) (k : String) (v : TokenData) : ResetTokenMap :=
  match m with
  | [] => [(k, v)]
  | (k', v') :: rest => if k' = k then (k, v) :: rest else (k', v') :: mapSet rest k v

/-- `Map.delete`. -/
def mapDelete (m : ResetTokenMap) (k : String) : ResetTokenMap :=
  m.filter (fun kv => kv.1 != k)

/-- One hour in milliseconds: `60 * 60 * 1000`. -/
def oneHourMs : Nat := 60 * 60 * 1000

/-- `createPasswordResetTokenQuery(userId)`.  The fresh random string from
`crypto.randomBytes(32).toString('hex')` and the current time `Date.now()`
are passed in as `token` and `now`.  Stores `\x7buserId, expires = now + 1h\x7d`
under `token`, then purges every entry with `expires < now`.  Returns the
updated map and the token. -/
def createPasswordResetTokenQuery (m : ResetTokenMap) (token : String)
    (now : Nat) (userId : Nat) : ResetTokenMap × String :=
  let expires := now + oneHourMs
  let m1 := mapSet m token ⟨userId, expires⟩
  let m2 := m1.filter (fun kv => decide (¬ kv.2.expires < now))
  (m2, token)

/-- `verifyPasswordResetTokenQuery(token)`: absent key gives `null`; an entry
with `expires < Date.now()` is deleted and gives `null`; otherwise the mapped
`userId` is returned and the entry is left in the map. -/
def verifyPasswordResetTokenQuery (m : ResetTokenMap) (token : String)
    (now : Nat) : ResetTokenMap × Option Nat :=
  match mapGet m token with
  | none => (m, none)
  | some td =>
    if td.expires < now then (mapDelete m token, none)
    else (m, some td.userId)

/-- `resetUserPasswordQuery(userId, newPassword)`.  `hash` stands for
`bcrypt.hash(·, 10)` with its fresh salt folded in; `updateOk` is the outcome
of the external `user.update(\x7bpassword\x7d)` call (`false` means it threw, which
the `catch` turns into a `false` return before any token is removed).  On
success the row's password is replaced and every reset token of that user is
deleted. -/
def resetUserPasswordQuery (users : UserTable) (m : ResetTokenMap) (uid : Nat)
    (newPassword : String) (hash : String → String) (updateOk : Bool) :
    UserTable × ResetTokenMap × Bool :=
  match findById users uid with
  | none => (users, m, false)
  | some _ =>
    if updateOk then
      let users' := users.map (fun v => if v.id = uid then { v with password := hash newPassword } else v)
      let m' := m.filter (fun kv => decide (kv.2.userId ≠ uid))
      (users', m', true)
    else
      (users, m, false)

/-- The JWT issuer claim used by `jwt.util.ts`. -/
def jwtIssuer : String := "trademaster"

/-- The JWT audience claim used by `jwt.util.ts`. -/
def jwtAudience : String := "trademaster-users"

/-- The `type` claim distinguishing access from refresh tokens. -/
inductive TokenKind where
  | access
  | refresh
deriving DecidableEq

/-- JWT configuration: the two signing secrets (`JWT_SECRET`,
`JWT_REFRESH_SECRET`, independently configurable, with hardcoded development
fallbacks in the source) and the two lifetimes (`JWT_EXPIRES_IN = '7d'`,
`JWT_REFRESH_EXPIRES_IN = '30d'`, here in seconds, with the access lifetime
also kept as its configuration string because `generateTokens` returns it
verbatim as `expiresIn`). -/
structure JwtConfig where
  accessSecret : String
  refreshSecret : String
  accessExpSec : Nat
  refreshExpSec : Nat
  accessExpLabel : String
deriving DecidableEq

/-- The configuration obtained from the hardcoded fallbacks when no
environment variables are set. -/
def defaultJwtConfig : JwtConfig :=
  ⟨"trademaster_jwt_secret_key_dev_only", "trademaster_refresh_secret_key_dev_only",
   7 * 24 * 3600, 30 * 24 * 3600, "7d"⟩

/-- The decoded claim set of a token: `\x7buserId, email, type, iat, exp, iss, aud\x7d`. -/
structure JwtClaims where
  userId : Nat
  email : String
  kind : TokenKind
  iat : Nat
  exp : Nat
  iss : String
  aud : String
deriving DecidableEq

/-- A signed token.  HS256 signing is deterministic, so a token is fully
determined by its claims and the signing secret; `signedWith` records the
secret the signature was produced with. -/
structure Jwt where
  claims : JwtClaims
  signedWith : String
deriving DecidableEq

/-- `jwt.sign(payload, secret, \x7bexpiresIn, issuer, audience\x7d)` at time `now`
(seconds): sets `iat = now`, `exp = now + expiresIn`. -/
def jwtSign (userId : Nat) (email : String) (kind : TokenKind) (secret : String)
    (expSec : Nat) (now : Nat) : Jwt :=
  ⟨⟨userId, email, kind, now, now + expSec, jwtIssuer, jwtAudience⟩, secret⟩

/-- `jwt.verify(token, secret, \x7bissuer, audience\x7d)`: succeeds exactly when the
signature matches `secret`, issuer and audience match, and the token is not
expired (jsonwebtoken rejects once the clock reaches `exp`, so validity is
`now < exp`).  A failure (the library throwing) is `none`. -/
def jwtVerify (t : Jwt) (secret : String) (now : Nat) : Option JwtClaims :=
  if t.signedWith = secret ∧ t.claims.iss = jwtIssuer ∧ t.claims.aud = jwtAudience
      ∧ now < t.claims.exp
  then some t.claims
  else none

/-- `generateAccessToken(userId, email)` at time `now`. -/
def generateAccessToken (cfg : JwtConfig) (userId : Nat) (email : String) (now : Nat) : Jwt :=
  jwtSign userId email .access cfg.accessSecret cfg.accessExpSec now

/-- `generateRefreshToken(userId, email)` at time `now`. -/
def generateRefreshToken (cfg : JwtConfig) (userId : Nat) (email : String) (now : Nat) : Jwt :=
  jwtSign userId email .refresh cfg.refreshSecret cfg.refreshExpSec now

/-- The `\x7baccessToken, refreshToken, expiresIn\x7d` object built by `generateTokens`. -/
structure TokenPair where
  accessToken : Jwt
  refreshToken : Jwt
  expiresIn : String
deriving DecidableEq

/-- `generateTokens(userId, email)` at time `now`. -/
def generateTokens (cfg : JwtConfig) (userId : Nat) (email : String) (now : Nat) : TokenPair :=
  ⟨generateAccessToken cfg userId email now, generateRefreshToken cfg userId email now,
   cfg.accessExpLabel⟩

/-- `verifyAccessToken(token)`: `jwt.verify` against `JWT_SECRET` (the `catch`
turns a throw into `null`), then `null` unless `decoded.type === 'access'`. -/
def verifyAccessToken (cfg : JwtConfig) (t : Jwt) (now : Nat) : Option JwtClaims :=
  match jwtVerify t cfg.accessSecret now with
  | none => none
  | some d => if d.kind ≠ .access then none else some d

/-- `verifyRefreshToken(token)`: `jwt.verify` against `JWT_REFRESH_SECRET`,
then `null` unless `decoded.type === 'refresh'`. -/
def verifyRefreshToken (cfg : JwtConfig) (t : Jwt) (now : Nat) : Option JwtClaims :=
  match jwtVerify t cfg.refreshSecret now with
  | none => none
  | some d => if d.kind ≠ .refresh then none else some d

/-- The characters `\s` of the email regex matches (the ASCII ones; the
request bodies considered here are ASCII). -/
def isJsSpace (c : Char) : Bool :=
  c == ' ' || c == '\t' || c == '\n' || c == '\r' || c == '\x0b' || c == '\x0c'

/-- A character admissible in a segment of `/^[^\s@]+@[^\s@]+\.[^\s@]+$/`. -/
def validEmailChar (c : Char) : Bool :=
  !(isJsSpace c) && c != '@'

/-- Splits a character list at every occurrence of `sep` (the segments between
separators, like `String.splitOn` with a one-character separator). -/
def splitAtChar (sep : Char) : List Char → List (List Char)
  | [] => [[]]
  | c :: cs =>
    if c = sep then [] :: splitAtChar sep cs
    else
      match splitAtChar sep cs with
      | [] => [[c]]
      | h :: t => (c :: h) :: t

/-- Whether the list contains a `'.'` at a position that is not the last. -/
def dotBeforeLast : List Char → Bool
  | [] => false
  | [_] => false
  | c :: c' :: cs => c == '.' || dotBeforeLast (c' :: cs)

/-- Whether the list contains a `'.'` at an interior position (neither first
nor last), i.e. can be split as `b ++ '.' :: c` with `b`, `c` nonempty. -/
def hasInteriorDot : List Char → Bool
  | [] => false
  | _ :: cs => dotBeforeLast cs

/-- The controllers' email validation `/^[^\s@]+@[^\s@]+\.[^\s@]+$/.test(email)`:
the string is `a@b.c` with `a`, `b`, `c` nonempty and free of whitespace and
`@` (`b` may itself contain dots). -/
def emailRegexTest (s : String) : Bool :=
  match splitAtChar '@' s.toList with
  | [a, rest] =>
    !a.isEmpty && a.all validEmailChar && !rest.isEmpty && rest.all validEmailChar
      && hasInteriorDot rest
  | _ => false

/-- JavaScript falsiness of an optional string request field: absent
(`undefined`) or the empty string. -/
def strFalsy (x : Option String) : Bool :=
  match x with
  | none => true
  | some s => s == ""

/-- JavaScript truthiness of the `number | null` returned by
`verifyPasswordResetTokenQuery` (`0` is falsy). -/
def natOptTruthy (x : Option Nat) : Bool :=
  match x with
  | none => false
  | some n => n != 0

/-- An HTTP response as produced by the controllers: status plus the exact
body shape written at each `res.json` site. -/
inductive Resp where
  /-- `res.status(s).json(\x7berror\x7d)`. -/
  | error : Nat → String → Resp
  /-- `res.status(s).json(\x7berror, code\x7d)`. -/
  | errorCode : Nat → String → String → Resp
  /-- `res.json(\x7bmessage\x7d)` (status 200). -/
  | jsonMessage : String → Resp
  /-- `res.json(\x7bdata: \x7buser, accessToken, refreshToken, expiresIn\x7d, message\x7d)`. -/
  | authData : JObj → TokenPair → String → Resp
  /-- `res.status(201).json(\x7bdata: user, message\x7d)`. -/
  | created : JObj → String → Resp
  /-- `res.json(\x7bdata: \x7buser, valid: true, expiresAt\x7d, message\x7d)` (`expiresAt`
  kept as the `exp` claim in seconds). -/
  | verifyOk : JObj → Nat → String → Resp
deriving DecidableEq

/-- The HTTP status of a response. -/
def Resp.status : Resp → Nat
  | .error s _ => s
  | .errorCode s _ _ => s
  | .jsonMessage _ => 200
  | .authData _ _ _ => 200
  | .created _ _ => 201
  | .verifyOk _ _ _ => 200

/-- The server state shared by the auth flows: the `users` table and the
module-level reset-token map. -/
structure ServerState where
  users : UserTable
  resetTokens : ResetTokenMap
deriving DecidableEq

/-- `signin(req, res)` from `auth.ctrl.ts`.  `compare` is
`bcrypt.compare(candidate, storedHash)`; `now` is the token-issue time in
seconds. -/
def signin (users : UserTable) (compare : String → String → Bool) (cfg : JwtConfig)
    (email password : Option String) (now : Nat) : Resp :=
  if strFalsy email || strFalsy password then
    .error 400 "Email and password are required"
  else
    let e := email.getD ""
    let p := password.getD ""
    if !emailRegexTest e then .error 400 "Invalid email format"
    else
      match getUserByEmailQuery users e true none with
      | none => .error 401 "Invalid email or password"
      | some inst =>
        if !compare p inst.row.password then .error 401 "Invalid email or password"
        else
          .authData (omitPassword (instToJSON inst))
            (generateTokens cfg inst.row.id inst.row.email now) "Signin successful"

/-- `forgotPassword(req, res)`.  `freshToken` is the random string
`createPasswordResetTokenQuery` would draw; `now` is `Date.now()`. -/
def forgotPassword (st : ServerState) (freshToken : String) (email : Option String)
    (now : Nat) : ServerState × Resp :=
  if strFalsy email then (st, .error 400 "Email is required")
  else
    let e := email.getD ""
    if !emailRegexTest e then (st, .error 400 "Invalid email format")
    else
      match getUserByEmailQuery st.users e false none with
      | none => (st, .jsonMessage "If the email exists, a reset link has been sent")
      | some inst =>
        let r := createPasswordResetTokenQuery st.resetTokens freshToken now inst.row.id
        ({ st with resetTokens := r.1 },
         .jsonMessage "Password reset link has been sent to your email")

/-- `resetPassword(req, res)`.  The boolean result of
`resetUserPasswordQuery` is ignored; the success message is sent whenever the
token check passed. -/
def resetPassword (st : ServerState) (hash : String → String) (updateOk : Bool)
    (token newPassword : Option String) (now : Nat) : ServerState × Resp :=
  if strFalsy token || strFalsy newPassword then
    (st, .error 400 "Reset token and new password are required")
  else
    let t := token.getD ""
    let np := newPassword.getD ""
    if np.length < 6 then
      (st, .error 400 "New password must be at least 6 characters long")
    else
      let v := verifyPasswordResetTokenQuery st.resetTokens t now
      if !natOptTruthy v.2 then
        ({ st with resetTokens := v.1 }, .error 400 "Invalid or expired reset token")
      else
        let uid := (v.2).getD 0
        let r := resetUserPasswordQuery st.users v.1 uid np hash updateOk
        (⟨r.1, r.2.1⟩, .jsonMessage "Password has been reset successfully")

/-- The `Authorization` header as seen through `extractTokenFromHeader`:
absent, present but not of the form `Bearer <token>`, or a bearer token. -/
inductive AuthHeader where
  | missing
  | malformed
  | bearer : Jwt → AuthHeader
deriving DecidableEq

/-- `verifyToken(req, res)`: header checks, `verifyAccessToken`, then
re-confirmation that the subject still exists. -/
def verifyToken (cfg : JwtConfig) (users : UserTable) (hdr : AuthHeader) (now : Nat) : Resp :=
  match hdr with
  | .missing => .errorCode 401 "No token provided" "TOKEN_MISSING"
  | .malformed => .errorCode 401 "Invalid authorization header format" "INVALID_AUTH_HEADER"
  | .bearer t =>
    match verifyAccessToken cfg t now with
    | none => .errorCode 401 "Invalid or expired token" "TOKEN_INVALID"
    | some d =>
      match getUserByEmailQuery users "" false (some d.userId) with
      | none => .errorCode 401 "User not found" "USER_NOT_FOUND"
      | some inst => .verifyOk (omitPassword (instToJSON inst)) d.exp "Token is valid"

/-- `refreshToken(req, res)`: verify the refresh token, re-confirm the
subject exists, and answer with a freshly generated pair from
`generateTokens` at the current time. -/
def refreshTokenCtrl (cfg : JwtConfig) (users : UserTable) (rt : Option Jwt) (now : Nat) : Resp :=
  match rt with
  | none => .errorCode 400 "Refresh token is required" "REFRESH_TOKEN_MISSING"
  | some t =>
    match verifyRefreshToken cfg t now with
    | none => .errorCode 401 "Invalid or expired refresh token" "REFRESH_TOKEN_INVALID"
    | some d =>
      match getUserByEmailQuery users "" false (some d.userId) with
      | none => .errorCode 401 "User not found" "USER_NOT_FOUND"
      | some inst =>
        .authData (omitPassword (instToJSON inst))
          (generateTokens cfg inst.row.id inst.row.email now) "Token refreshed successfully"

/-- `createUser(req, res)` from `user.ctrl.ts` (the `signup` controller
delegates to it): field and email-shape validation, duplicate-email check,
then `createUserQuery` which stores `bcrypt.hash(password, 10)`; the 201 body
carries the new record with the `password` key destructured away.  `freshId`
is the auto-increment id the database assigns. -/
def createUser (users : UserTable) (hash : String → String) (freshId : Nat)
    (firstname lastname email password : Option String) : UserTable × Resp :=
  if strFalsy firstname || strFalsy lastname || strFalsy email || strFalsy password then
    (users, .error 400 "Missing required fields: firstname, lastname, email, password")
  else
    let e := email.getD ""
    if !emailRegexTest e then (users, .error 400 "Invalid email format")
    else
      match findByEmail users e with
      | some _ => (users, .error 409 "User with this email already exists")
      | none =>
        let newUser : UserRec :=
          ⟨freshId, firstname.getD "", lastname.getD "", e, hash (password.getD "")⟩
        (users ++ [newUser],
         .created (omitPassword (userToJSON newUser)) "User created successfully")

/-- The slice of client state the interceptor and the `signout` reducer
touch.  `accessToken` and `refreshToken` are the `state.auth.accessToken` /
`state.auth.refreshToken` properties the interceptor reads; `reduxToken` is
the `token` field the `authSlice` reducers write (these are distinct
properties of the store object). -/
structure ClientAuth where
  accessToken : Option String
  refreshToken : Option String
  userPresent : Bool
  isAuthenticated : Bool
  reduxToken : Option String
deriving DecidableEq

/-- The client-side state: the redux auth slice plus the browser storage
entries the auth code uses (`localStorage.authToken`,
`sessionStorage.authToken`, `localStorage.refreshToken`). -/
structure ClientState where
  auth : ClientAuth
  lsAuthToken : Option String
  ssAuthToken : Option String
  lsRefreshToken : Option String
deriving DecidableEq

/-- The `signout` reducer of `authSlice.ts`: nulls `user`, `isAuthenticated`,
`token` and `error`, clears the network-service auth token, and removes the
`authToken` entries from local and session storage.  It touches neither the
`accessToken`/`refreshToken` store properties nor the `refreshToken`
localStorage entry. -/
def signoutReducer (s : ClientState) : ClientState :=
  { s with
    auth := { s.auth with userPresent := false, isAuthenticated := false, reduxToken := none },
    lsAuthToken := none,
    ssAuthToken := none }

/-- Whether `p` occurs in `l` (contiguously), starting at the head. -/
def startsWithL : List Char → List Char → Bool
  | [], _ => true
  | _ :: _, [] => false
  | p :: ps, c :: cs => p == c && startsWithL ps cs

/-- Whether `pat` occurs contiguously anywhere in the list. -/
def includesL (pat : List Char) : List Char → Bool
  | [] => startsWithL pat []
  | c :: cs => startsWithL pat (c :: cs) || includesL pat cs

/-- `url.includes(pat)`. -/
def strIncludes (s pat : String) : Bool :=
  includesL pat.toList s.toList

/-- The interceptor's check for the unauthenticated auth endpoints. -/
def isAuthEndpoint (url : String) : Bool :=
  strIncludes url "/auth/signin" || strIncludes url "/auth/signup"
    || strIncludes url "/auth/forgot-password" || strIncludes url "/auth/reset-password"

/-- An outgoing request as the interceptor sees it: its url, the `_retry`
flag, and its `Authorization` header. -/
structure ClientRequest where
  url : String
  retryFlagged : Bool
  authHeader : Option String
deriving DecidableEq

/-- The outcome of `userRepository.refreshToken(...)`: a 2xx reply from the
server's refresh endpoint always carries the new `\x7baccessToken,
refreshToken\x7d`, and any non-2xx status or transport failure makes axios (and
hence the repository call) throw. -/
inductive RefreshOutcome where
  | ok : String → String → RefreshOutcome
  | httpError : RefreshOutcome
deriving DecidableEq

/-- What `responseErrorInterceptor` resolves to. -/
inductive InterceptorAction where
  /-- `Promise.reject(error)`: the original error is propagated. -/
  | rejectOriginal
  /-- `Promise.reject(refreshError)`: the refresh failure is propagated. -/
  | rejectRefreshError
  /-- the original request is re-issued with the given configuration. -/
  | retryRequest : ClientRequest → InterceptorAction
deriving DecidableEq

/-- The result of one run of the interceptor: the client state afterwards,
what the promise resolves to, and whether a refresh call was made. -/
structure InterceptorResult where
  state : ClientState
  action : InterceptorAction
  refreshAttempted : Bool
deriving DecidableEq

/-- `responseErrorInterceptor` of `AuthInterceptor`: auth endpoints are passed
through; a 401 on a not-yet-retried request triggers at most one refresh using
`state.auth.refreshToken`.  On a successful refresh the dispatched
`auth/updateTokens` action matches no reducer of the store (the state is
unchanged by it), the two localStorage entries are written, and the request is
retried with the new bearer header and `_retry` set.  A throwing refresh
dispatches `signout`; a missing refresh token dispatches `signout` and rejects
the original error. -/
def responseErrorInterceptor (s : ClientState) (req : ClientRequest) (status : Nat)
    (outcome : RefreshOutcome) : InterceptorResult :=
  if isAuthEndpoint req.url then ⟨s, .rejectOriginal, false⟩
  else if status == 401 && !req.retryFlagged then
    let req' : ClientRequest := { req with retryFlagged := true }
    match s.auth.refreshToken with
    | some _ =>
      match outcome with
      | .ok newAccessToken newRefreshToken =>
        ⟨{ s with lsAuthToken := some newAccessToken, lsRefreshToken := some newRefreshToken },
         .retryRequest { req' with authHeader := some ("Bearer " ++ newAccessToken) }, true⟩
      | .httpError =>
        ⟨signoutReducer s, .rejectRefreshError, true⟩
    | none => ⟨signoutReducer s, .rejectOriginal, false⟩
  else ⟨s, .rejectOriginal, false⟩

/-- The access token carried by a `\x7bdata: \x7b..., accessToken, ...\x7d\x7d` response,
if the response has that shape. -/
def respAccessToken : Resp → Option Jwt
  | .authData _ tp _ => some tp.accessToken
  | _ => none

/-- The keys of the reset-token map are distinct (every state reachable
through the JS `Map` operations satisfies this). -/
abbrev keysNodup (m : ResetTokenMap) : Prop :=
  (m.map Prod.fst).Nodup

/-! Helper lemmas about the association-list `Map` operations and the
serialized objects. -/

theorem lookupField_omitPassword (o : JObj) :
    lookupField (omitPassword o) "password" = none := by
  induction o with
  | nil => rfl
  | cons kv rest ih =>
    by_cases h : kv.1 = "password"
    · simpa [omitPassword, List.filter_cons, h] using ih
    · simpa [omitPassword, List.filter_cons, h, lookupField] using ih

theorem mapGet_filter_mapSet (m : ResetTokenMap) (k : String) (v : TokenData)
    (p : String × TokenData → Bool) (hp : p (k, v) = true) :
    mapGet ((mapSet m k v).filter p) k = some v := by
  induction m with
  | nil => simp [mapSet, List.filter_cons, hp, mapGet]
  | cons kv rest ih =>
    obtain ⟨k', v'⟩ := kv
    by_cases h : k' = k
    · subst h
      simp [mapSet, List.filter_cons, hp, mapGet]
    · by_cases hq : p (k', v') = true
      · simpa [mapSet, h, List.filter_cons, hq, mapGet] using ih
      · simpa [mapSet, h, List.filter_cons, hq] using ih

theorem mapGet_eq_none_of_not_mem (m : ResetTokenMap) (k : String)
    (h : k ∉ m.map Prod.fst) : mapGet m k = none := by
  induction m with
  | nil => rfl
  | cons kv rest ih =>
    simp only [List.map_cons, List.mem_cons, not_or] at h
    have hne : ¬ kv.1 = k := fun hk => h.1 hk.symm
    simp [mapGet, hne, ih h.2]

theorem mapGet_filter_eq_none (m : ResetTokenMap) (k : String)
    (p : String × TokenData → Bool) (hm : mapGet m k = none) :
    mapGet (m.filter p) k = none := by
  induction m with
  | nil => rfl
  | cons kv rest ih =>
    by_cases h : kv.1 = k
    · simp [mapGet, h] at hm
    · have hm' : mapGet rest k = none := by simpa [mapGet, h] using hm
      by_cases hq : p kv = true
      · simpa [List.filter_cons, hq, mapGet, h] using ih hm'
      · simpa [List.filter_cons, hq] using ih hm'

theorem mapGet_filter_of_dropped (m : ResetTokenMap) (k : String) (v : TokenData)
    (p : String × TokenData → Bool) (hnd : keysNodup m)
    (hget : mapGet m k = some v) (hp : p (k, v) = false) :
    mapGet (m.filter p) k = none := by
  induction m with
  | nil => cases hget
  | cons kv rest ih =>
    obtain ⟨k', v'⟩ := kv
    have hnd' : k' ∉ rest.map Prod.fst ∧ keysNodup rest := by
      simpa [keysNodup, List.nodup_cons] using hnd
    by_cases h : k' = k
    · have hv : v' = v := by simpa [mapGet, h] using hget
      have hrest : mapGet rest k = none := by
        apply mapGet_eq_none_of_not_mem rest k
        rw [← h]
        exact hnd'.1
      have hpk : p (k', v') = false := by rw [h, hv]; exact hp
      simpa [List.filter_cons, hpk] using mapGet_filter_eq_none rest k p hrest
    · have hget' : mapGet rest k = some v := by simpa [mapGet, h] using hget
      by_cases hq : p (k', v') = true
      · simpa [List.filter_cons, hq, mapGet, h] using ih hnd'.2 hget'
      · simpa [List.filter_cons, hq] using ih hnd'.2 hget'

theorem mem_of_mem_mapSet (m : ResetTokenMap) (k : String) (v : TokenData)
    (x : String × TokenData) (hx : x ∈ mapSet m k v) : x = (k, v) ∨ x ∈ m := by
  induction m with
  | nil => simpa [mapSet] using hx
  | cons kv rest ih =>
    obtain ⟨k', v'⟩ := kv
    by_cases h : k' = k
    · subst h
      rcases (by simpa [mapSet] using hx : x = (k', v) ∨ x ∈ rest) with h1 | h1
      · exact Or.inl h1
      · exact Or.inr (List.mem_cons_of_mem _ h1)
    · rcases (by simpa [mapSet, h] using hx : x = (k', v') ∨ x ∈ mapSet rest k v) with h1 | h1
      · exact Or.inr (by simp [h1])
      · rcases ih h1 with h2 | h2
        · exact Or.inl h2
        · exact Or.inr (List.mem_cons_of_mem _ h2)

theorem mem_mapSet_of_mem (m : ResetTokenMap) (k : String) (v : TokenData)
    (x : String × TokenData) (hx : x ∈ m) (hk : x.1 ≠ k) : x ∈ mapSet m k v := by
  induction m with
  | nil => cases hx
  | cons kv rest ih =>
    obtain ⟨k', v'⟩ := kv
    by_cases h : k' = k
    · subst h
      rcases List.mem_cons.mp hx with h1 | h1
      · exact absurd (by simp [h1]) hk
      · simpa [mapSet] using Or.inr h1
    · rcases List.mem_cons.mp hx with h1 | h1
      · simp [mapSet, h, h1]
      · simpa [mapSet, h] using Or.inr (ih h1)

/-- C1, counterexample.  In the registry state built by `create([], "tok", 0, 7)`,
the first `consume` at time 0 returns subject 7, and a second `consume` of the
same token immediately afterwards returns subject 7 again — not `null` as the
claim states: `verifyPasswordResetTokenQuery` does not delete a valid entry on
successful consumption. -/
theorem reset_token_second_consume_not_null :
    (verifyPasswordResetTokenQuery (createPasswordResetTokenQuery [] "tok" 0 7).1 "tok" 0).2
        = some 7
      ∧ (verifyPasswordResetTokenQuery
          (verifyPasswordResetTokenQuery
            (createPasswordResetTokenQuery [] "tok" 0 7).1 "tok" 0).1 "tok" 0).2 = some 7
      ∧ (verifyPasswordResetTokenQuery
          (verifyPasswordResetTokenQuery
            (createPasswordResetTokenQuery [] "tok" 0 7).1 "tok" 0).1 "tok" 0).2 ≠ none := by
  decide

/-- C1, amended.  After `create(subjectId)` returns token `tok`, a `consume(tok)`
at any time up to the expiry instant returns the subject id and leaves the
registry unchanged, and a second `consume(tok)` (again within the lifetime)
returns the same subject id again: consumption by itself neither deletes nor
invalidates the token; it is invalidated only by expiry or by a successful
password reset for that subject. -/
theorem reset_token_consume_repeatable (m : ResetTokenMap) (tok : String)
    (uid now n1 n2 : Nat) (h1 : n1 ≤ now + oneHourMs) (h2 : n2 ≤ now + oneHourMs) :
    verifyPasswordResetTokenQuery (createPasswordResetTokenQuery m tok now uid).1 tok n1
        = ((createPasswordResetTokenQuery m tok now uid).1, some uid)
      ∧ verifyPasswordResetTokenQuery
          (verifyPasswordResetTokenQuery
            (createPasswordResetTokenQuery m tok now uid).1 tok n1).1 tok n2
        = ((createPasswordResetTokenQuery m tok now uid).1, some uid) := by
  have hget : mapGet (createPasswordResetTokenQuery m tok now uid).1 tok
      = some ⟨uid, now + oneHourMs⟩ := by
    apply mapGet_filter_mapSet
    simp
  have hv1 : verifyPasswordResetTokenQuery (createPasswordResetTokenQuery m tok now uid).1 tok n1
      = ((createPasswordResetTokenQuery m tok now uid).1, some uid) := by
    simp [verifyPasswordResetTokenQuery, hget, Nat.not_lt.mpr h1]
  refine ⟨hv1, ?_⟩
  rw [hv1]
  simp [verifyPasswordResetTokenQuery, hget, Nat.not_lt.mpr h2]

/-- C1, witness for the amended theorem at a concrete registry. -/
theorem reset_token_consume_repeatable_witness :
    verifyPasswordResetTokenQuery (createPasswordResetTokenQuery [] "t" 0 3).1 "t" 0
        = ((createPasswordResetTokenQuery [] "t" 0 3).1, some 3)
      ∧ verifyPasswordResetTokenQuery
          (verifyPasswordResetTokenQuery
            (createPasswordResetTokenQuery [] "t" 0 3).1 "t" 0).1 "t" 5
        = ((createPasswordResetTokenQuery [] "t" 0 3).1, some 3) :=
  reset_token_consume_repeatable [] "t" 3 0 0 5 (by decide) (by decide)

/-- C8, counterexample.  A token created at time 0 carries expiry `oneHourMs`,
and `consume` exactly at the expiry instant still returns the subject id:
the code's check is `expires < Date.now()`, strict, so "at or after expiry
returns null" fails at the expiry instant itself. -/
theorem reset_token_consume_at_expiry_instant :
    (verifyPasswordResetTokenQuery (createPasswordResetTokenQuery [] "tok" 0 5).1
        "tok" oneHourMs).2 = some 5
      ∧ (verifyPasswordResetTokenQuery (createPasswordResetTokenQuery [] "tok" 0 5).1
          "tok" oneHourMs).2 ≠ none := by
  decide

/-- C8, amended.  `create` at time `t` stores expiry `t + 1h`; `consume` at any
time up to AND INCLUDING the expiry instant returns the mapped subject id;
`consume` strictly after expiry returns null and deletes the entry as a side
effect; and every entry already expired at create time (`expires < now`) is
purged by the create call, while unexpired entries under other keys survive it. -/
theorem reset_token_expiry_behavior (m : ResetTokenMap) (tok : String) (uid now : Nat) :
    mapGet (createPasswordResetTokenQuery m tok now uid).1 tok = some ⟨uid, now + oneHourMs⟩
      ∧ (∀ n, n ≤ now + oneHourMs →
          verifyPasswordResetTokenQuery (createPasswordResetTokenQuery m tok now uid).1 tok n
            = ((createPasswordResetTokenQuery m tok now uid).1, some uid))
      ∧ (∀ n, now + oneHourMs < n →
          verifyPasswordResetTokenQuery (createPasswordResetTokenQuery m tok now uid).1 tok n
            = (mapDelete (createPasswordResetTokenQuery m tok now uid).1 tok, none))
      ∧ (∀ k td, (k, td) ∈ (createPasswordResetTokenQuery m tok now uid).1 →
          ¬ td.expires < now)
      ∧ (∀ k td, (k, td) ∈ m → ¬ td.expires < now → k ≠ tok →
          (k, td) ∈ (createPasswordResetTokenQuery m tok now uid).1) := by
  have hget : mapGet (createPasswordResetTokenQuery m tok now uid).1 tok
      = some ⟨uid, now + oneHourMs⟩ := by
    apply mapGet_filter_mapSet
    simp
  refine ⟨hget, ?_, ?_, ?_, ?_⟩
  · intro n hn
    simp [verifyPasswordResetTokenQuery, hget, Nat.not_lt.mpr hn]
  · intro n hn
    simp [verifyPasswordResetTokenQuery, hget, hn]
  · intro k td hmem
    have := List.of_mem_filter hmem
    simpa using this
  · intro k td hmem hexp hk
    apply List.mem_filter.mpr
    constructor
    · exact mem_mapSet_of_mem m tok ⟨uid, now + oneHourMs⟩ (k, td) hmem hk
    · simpa using hexp

/-- C8, witness: create at time 0, consume at the expiry instant and one
millisecond after it. -/
theorem reset_token_expiry_behavior_witness :
    mapGet (createPasswordResetTokenQuery [] "t" 0 3).1 "t" = some ⟨3, 0 + oneHourMs⟩
      ∧ verifyPasswordResetTokenQuery (createPasswordResetTokenQuery [] "t" 0 3).1 "t" oneHourMs
        = ((createPasswordResetTokenQuery [] "t" 0 3).1, some 3)
      ∧ verifyPasswordResetTokenQuery
          (createPasswordResetTokenQuery [] "t" 0 3).1 "t" (oneHourMs + 1)
        = (mapDelete (createPasswordResetTokenQuery [] "t" 0 3).1 "t", none) :=
  ⟨(reset_token_expiry_behavior [] "t" 3 0).1,
   (reset_token_expiry_behavior [] "t" 3 0).2.1 oneHourMs (by decide),
   (reset_token_expiry_behavior [] "t" 3 0).2.2.1 (oneHourMs + 1) (by decide)⟩

/-- C3.  If a reset-password call succeeds in changing the password (its token
maps to subject `td.userId`, unexpired; the user row exists; the row update
succeeds), then in the resulting state a second reset-password call with the
same token answers 400 "Invalid or expired reset token", and every other
reset token previously mapping to the same subject fails to consume (returns
null) — `resetUserPasswordQuery` removes every registry entry of that subject. -/
theorem reset_password_invalidates_subject_tokens
    (st : ServerState) (hash : String → String) (t np t' np₂ : String)
    (now now₂ now₃ : Nat) (uo₂ : Bool) (td td' : TokenData) (u : UserRec)
    (hnd : keysNodup st.resetTokens)
    (hv : mapGet st.resetTokens t = some td)
    (hexp : ¬ td.expires < now)
    (huid : td.userId ≠ 0)
    (hu : findById st.users td.userId = some u)
    (ht : t ≠ "") (hnp : np ≠ "") (hlen : ¬ np.length < 6)
    (ht' : mapGet st.resetTokens t' = some td')
    (huid' : td'.userId = td.userId)
    (hnp₂ : np₂ ≠ "") (hlen₂ : ¬ np₂.length < 6) :
    (resetPassword st hash true (some t) (some np) now).2
        = .jsonMessage "Password has been reset successfully"
      ∧ (resetPassword (resetPassword st hash true (some t) (some np) now).1 hash uo₂
          (some t) (some np₂) now₂).2 = .error 400 "Invalid or expired reset token"
      ∧ (verifyPasswordResetTokenQuery
          (resetPassword st hash true (some t) (some np) now).1.resetTokens t' now₃).2
        = none := by
  have hver : verifyPasswordResetTokenQuery st.resetTokens t now
      = (st.resetTokens, some td.userId) := by
    simp [verifyPasswordResetTokenQuery, hv, hexp]
  have hmain : resetPassword st hash true (some t) (some np) now
      = (⟨st.users.map (fun v => if v.id = td.userId then { v with password := hash np } else v),
          st.resetTokens.filter (fun kv => !decide (kv.2.userId = td.userId))⟩,
         .jsonMessage "Password has been reset successfully") := by
    simp [resetPassword, strFalsy, ht, hnp, hlen, hver, natOptTruthy, huid,
      resetUserPasswordQuery, hu]
  have hnone : mapGet
      (st.resetTokens.filter (fun kv => !decide (kv.2.userId = td.userId))) t = none := by
    apply mapGet_filter_of_dropped st.resetTokens t td _ hnd hv
    simp
  have hnone' : mapGet
      (st.resetTokens.filter (fun kv => !decide (kv.2.userId = td.userId))) t' = none := by
    apply mapGet_filter_of_dropped st.resetTokens t' td' _ hnd ht'
    simp [huid']
  refine ⟨by rw [hmain], ?_, ?_⟩
  · rw [hmain]
    simp [resetPassword, strFalsy, ht, hnp₂, hlen₂, verifyPasswordResetTokenQuery, hnone,
      natOptTruthy]
  · rw [hmain]
    simp [verifyPasswordResetTokenQuery, hnone']

/-- C3, witness: subject 5 holds two unexpired tokens `t1`, `t2`; resetting
with `t1` succeeds, after which both `t1` and `t2` are dead. -/
theorem reset_password_invalidates_subject_tokens_witness :
    (resetPassword ⟨[⟨5, "A", "B", "a@b.com", "old"⟩],
        [("t1", ⟨5, oneHourMs⟩), ("t2", ⟨5, oneHourMs⟩)]⟩
        (fun s => s) true (some "t1") (some "newpass") 0).2
        = .jsonMessage "Password has been reset successfully"
      ∧ (resetPassword (resetPassword ⟨[⟨5, "A", "B", "a@b.com", "old"⟩],
          [("t1", ⟨5, oneHourMs⟩), ("t2", ⟨5, oneHourMs⟩)]⟩
          (fun s => s) true (some "t1") (some "newpass") 0).1 (fun s => s) true
          (some "t1") (some "newpass2") 0).2 = .error 400 "Invalid or expired reset token"
      ∧ (verifyPasswordResetTokenQuery
          (resetPassword ⟨[⟨5, "A", "B", "a@b.com", "old"⟩],
            [("t1", ⟨5, oneHourMs⟩), ("t2", ⟨5, oneHourMs⟩)]⟩
            (fun s => s) true (some "t1") (some "newpass") 0).1.resetTokens "t2" 0).2
        = none :=
  reset_password_invalidates_subject_tokens
    ⟨[⟨5, "A", "B", "a@b.com", "old"⟩], [("t1", ⟨5, oneHourMs⟩), ("t2", ⟨5, oneHourMs⟩)]⟩
    (fun s => s) "t1" "newpass" "t2" "newpass2" 0 0 0 true ⟨5, oneHourMs⟩ ⟨5, oneHourMs⟩
    ⟨5, "A", "B", "a@b.com", "old"⟩ (by decide) (by decide) (by decide) (by decide)
    (by decide) (by decide) (by decide) (by decide) (by decide) (by decide) (by decide)
    (by decide)

/-- C5.  When the token check passes but `resetUserPasswordQuery` fails —
the user row no longer exists, or the row update throws — the controller
still answers 200 "Password has been reset successfully" (it ignores the
returned boolean), and the server state is completely unchanged: in
particular the subject's outstanding reset tokens are not invalidated. -/
theorem reset_password_success_response_despite_failure
    (st : ServerState) (hash : String → String) (updateOk : Bool) (t np : String)
    (now : Nat) (td : TokenData)
    (hv : mapGet st.resetTokens t = some td)
    (hexp : ¬ td.expires < now)
    (huid : td.userId ≠ 0)
    (ht : t ≠ "") (hnp : np ≠ "") (hlen : ¬ np.length < 6)
    (hfail : findById st.users td.userId = none ∨ updateOk = false) :
    resetPassword st hash updateOk (some t) (some np) now
      = (st, .jsonMessage "Password has been reset successfully") := by
  have hver : verifyPasswordResetTokenQuery st.resetTokens t now
      = (st.resetTokens, some td.userId) := by
    simp [verifyPasswordResetTokenQuery, hv, hexp]
  have hrq : resetUserPasswordQuery st.users st.resetTokens td.userId np hash updateOk
      = (st.users, st.resetTokens, false) := by
    rcases hfail with h | h
    · simp [resetUserPasswordQuery, h]
    · subst h
      cases hfind : findById st.users td.userId <;> simp [resetUserPasswordQuery, hfind]
  simp [resetPassword, strFalsy, ht, hnp, hlen, hver, natOptTruthy, huid, hrq]

/-- C5, witness: the registry maps `t1` to the deleted subject 5; the call
answers 200 and the token survives. -/
theorem reset_password_success_response_despite_failure_witness :
    resetPassword ⟨[], [("t1", ⟨5, oneHourMs⟩)]⟩ (fun s => s) true
        (some "t1") (some "newpass") 0
      = (⟨[], [("t1", ⟨5, oneHourMs⟩)]⟩,
         .jsonMessage "Password has been reset successfully") :=
  reset_password_success_response_despite_failure ⟨[], [("t1", ⟨5, oneHourMs⟩)]⟩
    (fun s => s) true "t1" "newpass" 0 ⟨5, oneHourMs⟩ (by decide) (by decide) (by decide)
    (by decide) (by decide) (by decide) (Or.inl (by decide))

/-- C2.  `forgotPassword` answers 200 in both the existing-email and the
unknown-email case, but with two different message strings — "Password reset
link has been sent to your email" versus "If the email exists, a reset link
has been sent" — so the response content does reveal whether the account
exists, contradicting the code's own comment "For security, don't reveal if
email exists or not". -/
theorem forgot_password_message_leaks_existence :
    (forgotPassword ⟨[⟨1, "A", "B", "a@b.com", "h"⟩], []⟩ "rnd" (some "a@b.com") 0).2
        = .jsonMessage "Password reset link has been sent to your email"
      ∧ (forgotPassword ⟨[⟨1, "A", "B", "a@b.com", "h"⟩], []⟩ "rnd" (some "x@y.com") 0).2
        = .jsonMessage "If the email exists, a reset link has been sent"
      ∧ (forgotPassword ⟨[⟨1, "A", "B", "a@b.com", "h"⟩], []⟩ "rnd" (some "a@b.com") 0).2.status
        = 200
      ∧ (forgotPassword ⟨[⟨1, "A", "B", "a@b.com", "h"⟩], []⟩ "rnd" (some "x@y.com") 0).2.status
        = 200
      ∧ (forgotPassword ⟨[⟨1, "A", "B", "a@b.com", "h"⟩], []⟩ "rnd" (some "a@b.com") 0).2
        ≠ (forgotPassword ⟨[⟨1, "A", "B", "a@b.com", "h"⟩], []⟩ "rnd" (some "x@y.com") 0).2 := by
  decide

/-- C4.  A token produced by `generateAccessToken` is rejected (null, not a
throw) by `verifyRefreshToken` at every verification time, and symmetrically
a `generateRefreshToken` token is rejected by `verifyAccessToken`; moreover
each verifier accepts a token only when its signature matches the verifier's
secret, issuer and audience match, the token is unexpired, and its kind tag
matches the verification context. -/
theorem jwtVerify_eq_some (t : Jwt) (s : String) (n : Nat) (d : JwtClaims)
    (h : jwtVerify t s n = some d) :
    t.signedWith = s ∧ t.claims.iss = jwtIssuer ∧ t.claims.aud = jwtAudience
      ∧ n < t.claims.exp ∧ d = t.claims := by
  unfold jwtVerify at h
  split at h
  case _ hc => exact ⟨hc.1, hc.2.1, hc.2.2.1, hc.2.2.2, (Option.some.inj h).symm⟩
  case _ => cases h

theorem verifyRefreshToken_none_of_kind_access (cfg : JwtConfig) (t : Jwt) (n : Nat)
    (h : t.claims.kind = .access) : verifyRefreshToken cfg t n = none := by
  unfold verifyRefreshToken
  cases hv : jwtVerify t cfg.refreshSecret n with
  | none => rfl
  | some d =>
    have hd : d = t.claims := (jwtVerify_eq_some t cfg.refreshSecret n d hv).2.2.2.2
    simp [hd, h]

theorem verifyAccessToken_none_of_kind_refresh (cfg : JwtConfig) (t : Jwt) (n : Nat)
    (h : t.claims.kind = .refresh) : verifyAccessToken cfg t n = none := by
  unfold verifyAccessToken
  cases hv : jwtVerify t cfg.accessSecret n with
  | none => rfl
  | some d =>
    have hd : d = t.claims := (jwtVerify_eq_some t cfg.accessSecret n d hv).2.2.2.2
    simp [hd, h]

theorem token_kind_separation (cfg : JwtConfig) (uid : Nat) (em : String) (t₀ n : Nat) :
    verifyRefreshToken cfg (generateAccessToken cfg uid em t₀) n = none
      ∧ verifyAccessToken cfg (generateRefreshToken cfg uid em t₀) n = none
      ∧ (∀ t d, verifyAccessToken cfg t n = some d →
          t.signedWith = cfg.accessSecret ∧ t.claims.iss = jwtIssuer
            ∧ t.claims.aud = jwtAudience ∧ n < t.claims.exp
            ∧ t.claims.kind = .access ∧ d = t.claims)
      ∧ (∀ t d, verifyRefreshToken cfg t n = some d →
          t.signedWith = cfg.refreshSecret ∧ t.claims.iss = jwtIssuer
            ∧ t.claims.aud = jwtAudience ∧ n < t.claims.exp
            ∧ t.claims.kind = .refresh ∧ d = t.claims) := by
  refine ⟨?_, ?_, ?_, ?_⟩
  · exact verifyRefreshToken_none_of_kind_access cfg _ n rfl
  · exact verifyAccessToken_none_of_kind_refresh cfg _ n rfl
  · intro t d h
    unfold verifyAccessToken at h
    cases hv : jwtVerify t cfg.accessSecret n with
    | none => rw [hv] at h; cases h
    | some d' =>
      rw [hv] at h
      by_cases hk : d'.kind = TokenKind.access
      · have hd : d' = d := by simpa [hk] using h
        obtain ⟨hs, hi, ha, he, hdc⟩ := jwtVerify_eq_some t cfg.accessSecret n d' hv
        refine ⟨hs, hi, ha, he, ?_, ?_⟩
        · rw [← hdc]; exact hk
        · rw [← hd]; exact hdc
      · simp [hk] at h
  · intro t d h
    unfold verifyRefreshToken at h
    cases hv : jwtVerify t cfg.refreshSecret n with
    | none => rw [hv] at h; cases h
    | some d' =>
      rw [hv] at h
      by_cases hk : d'.kind = TokenKind.refresh
      · have hd : d' = d := by simpa [hk] using h
        obtain ⟨hs, hi, ha, he, hdc⟩ := jwtVerify_eq_some t cfg.refreshSecret n d' hv
        refine ⟨hs, hi, ha, he, ?_, ?_⟩
        · rw [← hdc]; exact hk
        · rw [← hd]; exact hdc
      · simp [hk] at h

/-- C4, witness: with the default configuration, the cross-verifications
reject at concrete times, and an accepted access token satisfies all the
verification conditions. -/
theorem token_kind_separation_witness :
    verifyRefreshToken defaultJwtConfig (generateAccessToken defaultJwtConfig 1 "a@b.com" 0) 5
        = none
      ∧ verifyAccessToken defaultJwtConfig (generateRefreshToken defaultJwtConfig 1 "a@b.com" 0) 5
        = none
      ∧ ((generateAccessToken defaultJwtConfig 1 "a@b.com" 0).signedWith
            = defaultJwtConfig.accessSecret
          ∧ (generateAccessToken defaultJwtConfig 1 "a@b.com" 0).claims.iss = jwtIssuer
          ∧ (generateAccessToken defaultJwtConfig 1 "a@b.com" 0).claims.aud = jwtAudience
          ∧ 5 < (generateAccessToken defaultJwtConfig 1 "a@b.com" 0).claims.exp
          ∧ (generateAccessToken defaultJwtConfig 1 "a@b.com" 0).claims.kind = .access
          ∧ (generateAccessToken defaultJwtConfig 1 "a@b.com" 0).claims
            = (generateAccessToken defaultJwtConfig 1 "a@b.com" 0).claims) :=
  ⟨(token_kind_separation defaultJwtConfig 1 "a@b.com" 0 5).1,
   (token_kind_separation defaultJwtConfig 1 "a@b.com" 0 5).2.1,
   (token_kind_separation defaultJwtConfig 1 "a@b.com" 0 5).2.2.1
     (generateAccessToken defaultJwtConfig 1 "a@b.com" 0)
     (generateAccessToken defaultJwtConfig 1 "a@b.com" 0).claims (by decide)⟩

/-- C6.  For a well-formed sign-in request, the response when the email
matches no user equals — status 401 and body `\x7berror: "Invalid email or
password"\x7d` alike — the response when the email matches a user but the
password comparison fails: an observer cannot distinguish the two cases. -/
theorem signin_failure_responses_identical (users₁ users₂ : UserTable)
    (compare : String → String → Bool) (cfg : JwtConfig) (e p : String) (now : Nat)
    (u : UserRec) (he : e ≠ "") (hp : p ≠ "") (hre : emailRegexTest e = true)
    (h1 : findByEmail users₁ e = none)
    (h2 : findByEmail users₂ e = some u)
    (h3 : compare p u.password = false) :
    signin users₁ compare cfg (some e) (some p) now
        = .error 401 "Invalid email or password"
      ∧ signin users₂ compare cfg (some e) (some p) now
        = .error 401 "Invalid email or password"
      ∧ signin users₁ compare cfg (some e) (some p) now
        = signin users₂ compare cfg (some e) (some p) now := by
  have ha : signin users₁ compare cfg (some e) (some p) now
      = .error 401 "Invalid email or password" := by
    simp [signin, strFalsy, he, hp, hre, getUserByEmailQuery, h1]
  have hb : signin users₂ compare cfg (some e) (some p) now
      = .error 401 "Invalid email or password" := by
    simp [signin, strFalsy, he, hp, hre, getUserByEmailQuery, h2, h3]
  exact ⟨ha, hb, ha.trans hb.symm⟩

/-- C6, witness: a store without the account versus a store where the
password check fails produce the same 401 response. -/
theorem signin_failure_responses_identical_witness :
    signin [] (fun _ _ => false) defaultJwtConfig (some "a@b.com") (some "pw") 0
        = .error 401 "Invalid email or password"
      ∧ signin [⟨1, "A", "B", "a@b.com", "h"⟩] (fun _ _ => false) defaultJwtConfig
          (some "a@b.com") (some "pw") 0
        = .error 401 "Invalid email or password"
      ∧ signin [] (fun _ _ => false) defaultJwtConfig (some "a@b.com") (some "pw") 0
        = signin [⟨1, "A", "B", "a@b.com", "h"⟩] (fun _ _ => false) defaultJwtConfig
            (some "a@b.com") (some "pw") 0 :=
  signin_failure_responses_identical [] [⟨1, "A", "B", "a@b.com", "h"⟩] (fun _ _ => false)
    defaultJwtConfig "a@b.com" "pw" 0 ⟨1, "A", "B", "a@b.com", "h"⟩ (by decide) (by decide)
    (by decide) (by decide) (by decide) (by decide)

/-- C7.  No response of the auth flows carries a `password` field inside its
serialized user object: whenever `signin`, `createUser` (the sign-up path),
`verifyToken` or `refreshToken` answer with a user object, looking up
`password` in that object yields nothing. -/
theorem no_password_in_auth_responses :
    (∀ users compare cfg e p now o tp msg,
        signin users compare cfg e p now = .authData o tp msg →
          lookupField o "password" = none)
      ∧ (∀ users hash fid f l e p o msg,
          (createUser users hash fid f l e p).2 = .created o msg →
            lookupField o "password" = none)
      ∧ (∀ cfg users hdr now o x msg,
          verifyToken cfg users hdr now = .verifyOk o x msg →
            lookupField o "password" = none)
      ∧ (∀ cfg users rt now o tp msg,
          refreshTokenCtrl cfg users rt now = .authData o tp msg →
            lookupField o "password" = none) := by
  refine ⟨?_, ?_, ?_, ?_⟩
  · intro users compare cfg e p now o tp msg h
    simp only [signin] at h
    split at h
    · exact Resp.noConfusion h
    · split at h
      · exact Resp.noConfusion h
      · split at h
        · exact Resp.noConfusion h
        · split at h
          · exact Resp.noConfusion h
          · obtain ⟨h1, h2, h3⟩ := Resp.authData.inj h
            rw [← h1]
            exact lookupField_omitPassword _
  · intro users hash fid f l e p o msg h
    simp only [createUser] at h
    split at h
    · exact Resp.noConfusion h
    · split at h
      · exact Resp.noConfusion h
      · split at h
        · exact Resp.noConfusion h
        · obtain ⟨h1, h2⟩ := Resp.created.inj h
          rw [← h1]
          exact lookupField_omitPassword _
  · intro cfg users hdr now o x msg h
    cases hdr with
    | missing => exact Resp.noConfusion h
    | malformed => exact Resp.noConfusion h
    | bearer t =>
      simp only [verifyToken] at h
      split at h
      · exact Resp.noConfusion h
      · split at h
        · exact Resp.noConfusion h
        · obtain ⟨h1, h2, h3⟩ := Resp.verifyOk.inj h
          rw [← h1]
          exact lookupField_omitPassword _
  · intro cfg users rt now o tp msg h
    cases rt with
    | none => exact Resp.noConfusion h
    | some t =>
      simp only [refreshTokenCtrl] at h
      split at h
      · exact Resp.noConfusion h
      · split at h
        · exact Resp.noConfusion h
        · obtain ⟨h1, h2, h3⟩ := Resp.authData.inj h
          rw [← h1]
          exact lookupField_omitPassword _

/-- C7, witness: each of the four flows at a concrete successful input yields
a user object whose `password` lookup is `none`. -/
theorem no_password_in_auth_responses_witness :
    lookupField (omitPassword (userToJSON ⟨1, "A", "B", "a@b.com", "h"⟩)) "password" = none
      ∧ lookupField (omitPassword (userToJSON ⟨1, "A", "B", "a@b.com", "hpw"⟩)) "password"
        = none
      ∧ lookupField (omitPassword (omitPassword (userToJSON ⟨1, "A", "B", "a@b.com", "h"⟩)))
        "password" = none :=
  ⟨no_password_in_auth_responses.1 [⟨1, "A", "B", "a@b.com", "h"⟩] (fun _ _ => true)
     defaultJwtConfig (some "a@b.com") (some "pw") 100
     (omitPassword (userToJSON ⟨1, "A", "B", "a@b.com", "h"⟩))
     (generateTokens defaultJwtConfig 1 "a@b.com" 100) "Signin successful" (by decide),
   no_password_in_auth_responses.2.1 [] (fun _ => "hpw") 1 (some "A") (some "B")
     (some "a@b.com") (some "pw") (omitPassword (userToJSON ⟨1, "A", "B", "a@b.com", "hpw"⟩))
     "User created successfully" (by decide),
   no_password_in_auth_responses.2.2.2 defaultJwtConfig [⟨1, "A", "B", "a@b.com", "h"⟩]
     (some (generateRefreshToken defaultJwtConfig 1 "a@b.com" 50)) 60
     (omitPassword (omitPassword (userToJSON ⟨1, "A", "B", "a@b.com", "h"⟩)))
     (generateTokens defaultJwtConfig 1 "a@b.com" 60) "Token refreshed successfully"
     (by decide)⟩

/-- C9, counterexample.  With the default configuration, sign-in at second 100
issues the pair `generateTokens cfg 1 "a@b.com" 100`; calling the refresh
endpoint with that refresh token in the same second succeeds (an `authData`
response) but returns an access token EQUAL to the originally issued one:
HS256 signing is deterministic in the claims, and `iat`/`exp` are unchanged
within the same second, so "the returned accessToken is different from the one
originally issued" fails. -/
theorem refresh_same_second_identical_access_token :
    respAccessToken (signin [⟨1, "A", "B", "a@b.com", "h"⟩] (fun _ _ => true)
        defaultJwtConfig (some "a@b.com") (some "pw") 100)
        = some (generateAccessToken defaultJwtConfig 1 "a@b.com" 100)
      ∧ respAccessToken (refreshTokenCtrl defaultJwtConfig [⟨1, "A", "B", "a@b.com", "h"⟩]
          (some (generateTokens defaultJwtConfig 1 "a@b.com" 100).refreshToken) 100)
        = some (generateAccessToken defaultJwtConfig 1 "a@b.com" 100)
      ∧ (refreshTokenCtrl defaultJwtConfig [⟨1, "A", "B", "a@b.com", "h"⟩]
          (some (generateTokens defaultJwtConfig 1 "a@b.com" 100).refreshToken) 100).status
        = 200 := by
  decide

/-- C9, amended.  A refresh request whose token verifies and whose subject
still exists answers 200 with a pair freshly generated by `generateTokens` at
the current time (both tokens rotated); if the subject row no longer exists
the answer is 401 `USER_NOT_FOUND`; and the new access token differs from any
access token issued at a different second (different `iat`) — only a refresh
within the very second of the original issuance reproduces an identical token. -/
theorem refresh_rotates_both_tokens (cfg : JwtConfig) (users : UserTable) (rt : Jwt)
    (now : Nat) (d : JwtClaims) (u : UserRec)
    (h1 : verifyRefreshToken cfg rt now = some d)
    (h2 : d.userId ≠ 0)
    (h3 : findById users d.userId = some u) :
    refreshTokenCtrl cfg users (some rt) now
        = .authData (omitPassword (omitPassword (userToJSON u)))
            (generateTokens cfg u.id u.email now) "Token refreshed successfully"
      ∧ (∀ users' : UserTable, findById users' d.userId = none →
          refreshTokenCtrl cfg users' (some rt) now
            = .errorCode 401 "User not found" "USER_NOT_FOUND")
      ∧ (∀ uid₀ em₀ t₀, t₀ ≠ now →
          generateAccessToken cfg uid₀ em₀ t₀ ≠ generateAccessToken cfg u.id u.email now) := by
  refine ⟨?_, ?_, ?_⟩
  · simp [refreshTokenCtrl, h1, getUserByEmailQuery, h2, h3, instToJSON]
  · intro users' hnone
    simp [refreshTokenCtrl, h1, getUserByEmailQuery, h2, hnone]
  · intro uid₀ em₀ t₀ hne heq
    have hiat : t₀ = now := congrArg (fun j => j.claims.iat) heq
    exact hne hiat

/-- C9, witness: a refresh one second after issuance succeeds for an existing
subject, rejects when the subject is gone, and yields a different access
token. -/
theorem refresh_rotates_both_tokens_witness :
    refreshTokenCtrl defaultJwtConfig [⟨1, "A", "B", "a@b.com", "h"⟩]
        (some (generateRefreshToken defaultJwtConfig 1 "a@b.com" 50)) 60
        = .authData (omitPassword (omitPassword (userToJSON ⟨1, "A", "B", "a@b.com", "h"⟩)))
            (generateTokens defaultJwtConfig 1 "a@b.com" 60) "Token refreshed successfully"
      ∧ refreshTokenCtrl defaultJwtConfig []
          (some (generateRefreshToken defaultJwtConfig 1 "a@b.com" 50)) 60
        = .errorCode 401 "User not found" "USER_NOT_FOUND"
      ∧ generateAccessToken defaultJwtConfig 1 "a@b.com" 50
        ≠ generateAccessToken defaultJwtConfig 1 "a@b.com" 60 :=
  ⟨(refresh_rotates_both_tokens defaultJwtConfig [⟨1, "A", "B", "a@b.com", "h"⟩]
      (generateRefreshToken defaultJwtConfig 1 "a@b.com" 50) 60
      (generateRefreshToken defaultJwtConfig 1 "a@b.com" 50).claims
      ⟨1, "A", "B", "a@b.com", "h"⟩ (by decide) (by decide) (by decide)).1,
   (refresh_rotates_both_tokens defaultJwtConfig [⟨1, "A", "B", "a@b.com", "h"⟩]
      (generateRefreshToken defaultJwtConfig 1 "a@b.com" 50) 60
      (generateRefreshToken defaultJwtConfig 1 "a@b.com" 50).claims
      ⟨1, "A", "B", "a@b.com", "h"⟩ (by decide) (by decide) (by decide)).2.1 [] (by decide),
   (refresh_rotates_both_tokens defaultJwtConfig [⟨1, "A", "B", "a@b.com", "h"⟩]
      (generateRefreshToken defaultJwtConfig 1 "a@b.com" 50) 60
      (generateRefreshToken defaultJwtConfig 1 "a@b.com" 50).claims
      ⟨1, "A", "B", "a@b.com", "h"⟩ (by decide) (by decide) (by decide)).2.2 1 "a@b.com" 50
     (by decide)⟩

/-- C10, counterexample.  Starting from a signed-in client, a first 401 with a
successful refresh writes `refreshToken = "r0"` to localStorage; a later 401
whose refresh call fails dispatches `signout`, which forces the signed-out
state and clears the `authToken` entries — but the claim's "stored tokens are
cleared" is false: the `refreshToken` localStorage entry still holds `"r0"`
and the store's `refreshToken` property is untouched, because the `signout`
reducer only removes `token`/`authToken`. -/
theorem interceptor_signout_keeps_refresh_token :
    (responseErrorInterceptor
        (responseErrorInterceptor
          ⟨⟨some "a0", some "r_old", true, true, some "a0"⟩, some "a0", none, none⟩
          ⟨"/api/businesses", false, some "Bearer a0"⟩ 401 (.ok "a1" "r0")).state
        ⟨"/api/businesses", false, some "Bearer a1"⟩ 401 .httpError).action
        = .rejectRefreshError
      ∧ (responseErrorInterceptor
          (responseErrorInterceptor
            ⟨⟨some "a0", some "r_old", true, true, some "a0"⟩, some "a0", none, none⟩
            ⟨"/api/businesses", false, some "Bearer a0"⟩ 401 (.ok "a1" "r0")).state
          ⟨"/api/businesses", false, some "Bearer a1"⟩ 401 .httpError).state.auth.isAuthenticated
        = false
      ∧ (responseErrorInterceptor
          (responseErrorInterceptor
            ⟨⟨some "a0", some "r_old", true, true, some "a0"⟩, some "a0", none, none⟩
            ⟨"/api/businesses", false, some "Bearer a0"⟩ 401 (.ok "a1" "r0")).state
          ⟨"/api/businesses", false, some "Bearer a1"⟩ 401 .httpError).state.lsAuthToken
        = none
      ∧ (responseErrorInterceptor
          (responseErrorInterceptor
            ⟨⟨some "a0", some "r_old", true, true, some "a0"⟩, some "a0", none, none⟩
            ⟨"/api/businesses", false, some "Bearer a0"⟩ 401 (.ok "a1" "r0")).state
          ⟨"/api/businesses", false, some "Bearer a1"⟩ 401 .httpError).state.lsRefreshToken
        = some "r0"
      ∧ (responseErrorInterceptor
          (responseErrorInterceptor
            ⟨⟨some "a0", some "r_old", true, true, some "a0"⟩, some "a0", none, none⟩
            ⟨"/api/businesses", false, some "Bearer a0"⟩ 401 (.ok "a1" "r0")).state
          ⟨"/api/businesses", false, some "Bearer a1"⟩ 401 .httpError).state.auth.refreshToken
        = some "r_old" := by
  decide

/-- C10, amended.  The interceptor performs at most one refresh-and-retry per
request: a 401 on an already-retried request (the per-request `_retry` flag)
is rejected with no refresh attempt, any retried request it emits carries the
flag, and a refresh is only ever attempted for a first-time 401 on a non-auth
endpoint.  If the refresh call fails, or no refresh token is held, the client
is forced into the signed-out state via the `signout` reducer — which clears
`isAuthenticated`, the store `token` and the stored `authToken` entries, but
leaves the `refreshToken` store property and localStorage entry in place. -/
theorem interceptor_single_refresh_and_signout :
    (∀ s req out, isAuthEndpoint req.url = false → req.retryFlagged = true →
        responseErrorInterceptor s req 401 out = ⟨s, .rejectOriginal, false⟩)
      ∧ (∀ s req status out r',
          (responseErrorInterceptor s req status out).action = .retryRequest r' →
            r'.retryFlagged = true)
      ∧ (∀ s req status out,
          (responseErrorInterceptor s req status out).refreshAttempted = true →
            status = 401 ∧ req.retryFlagged = false ∧ isAuthEndpoint req.url = false)
      ∧ (∀ s req rt, isAuthEndpoint req.url = false → req.retryFlagged = false →
          s.auth.refreshToken = some rt →
            responseErrorInterceptor s req 401 .httpError
              = ⟨signoutReducer s, .rejectRefreshError, true⟩)
      ∧ (∀ s req out, isAuthEndpoint req.url = false → req.retryFlagged = false →
          s.auth.refreshToken = none →
            responseErrorInterceptor s req 401 out
              = ⟨signoutReducer s, .rejectOriginal, false⟩)
      ∧ (∀ s : ClientState,
          (signoutReducer s).auth.isAuthenticated = false
            ∧ (signoutReducer s).auth.reduxToken = none
            ∧ (signoutReducer s).lsAuthToken = none
            ∧ (signoutReducer s).ssAuthToken = none
            ∧ (signoutReducer s).lsRefreshToken = s.lsRefreshToken
            ∧ (signoutReducer s).auth.refreshToken = s.auth.refreshToken) := by
  refine ⟨?_, ?_, ?_, ?_, ?_, ?_⟩
  · intro s req out hA hR
    simp [responseErrorInterceptor, hA, hR]
  · intro s req status out r' h
    by_cases hA : isAuthEndpoint req.url = true
    · simp [responseErrorInterceptor, hA] at h
    · have hA' : isAuthEndpoint req.url = false := by simpa using hA
      by_cases hB : (status == 401 && !req.retryFlagged) = true
      · cases hrt : s.auth.refreshToken with
        | none => simp [responseErrorInterceptor, hA', hB, hrt] at h
        | some rt =>
          cases out with
          | httpError => simp [responseErrorInterceptor, hA', hB, hrt] at h
          | ok na nr =>
            simp [responseErrorInterceptor, hA', hB, hrt] at h
            rw [← h]
      · have hB' : (status == 401 && !req.retryFlagged) = false := by simpa using hB
        simp [responseErrorInterceptor, hA', hB'] at h
  · intro s req status out h
    by_cases hA : isAuthEndpoint req.url = true
    · simp [responseErrorInterceptor, hA] at h
    · have hA' : isAuthEndpoint req.url = false := by simpa using hA
      by_cases hB : (status == 401 && !req.retryFlagged) = true
      · obtain ⟨hs, hr⟩ := Bool.and_eq_true_iff.mp hB
        refine ⟨by simpa using hs, ?_, hA'⟩
        cases hflag : req.retryFlagged with
        | false => rfl
        | true => rw [hflag] at hr; cases hr
      · have hB' : (status == 401 && !req.retryFlagged) = false := by simpa using hB
        simp [responseErrorInterceptor, hA', hB'] at h
  · intro s req rt hA hR hrt
    simp [responseErrorInterceptor, hA, hR, hrt]
  · intro s req out hA hR hrt
    simp [responseErrorInterceptor, hA, hR, hrt]
  · intro s
    exact ⟨rfl, rfl, rfl, rfl, rfl, rfl⟩

/-- C10, witness: a retried request's 401 is rejected without refresh; a
failed refresh forces sign-out; a client with no refresh token is signed out
directly. -/
theorem interceptor_single_refresh_and_signout_witness :
    responseErrorInterceptor
        ⟨⟨some "a1", some "r0", true, true, some "a1"⟩, some "a1", none, some "r0"⟩
        ⟨"/api/businesses", true, some "Bearer a1"⟩ 401 .httpError
        = ⟨⟨⟨some "a1", some "r0", true, true, some "a1"⟩, some "a1", none, some "r0"⟩,
           .rejectOriginal, false⟩
      ∧ responseErrorInterceptor
          ⟨⟨some "a1", some "r0", true, true, some "a1"⟩, some "a1", none, some "r0"⟩
          ⟨"/api/businesses", false, some "Bearer a1"⟩ 401 .httpError
        = ⟨signoutReducer
            ⟨⟨some "a1", some "r0", true, true, some "a1"⟩, some "a1", none, some "r0"⟩,
           .rejectRefreshError, true⟩
      ∧ responseErrorInterceptor
          ⟨⟨some "a1", none, true, true, some "a1"⟩, some "a1", none, none⟩
          ⟨"/api/businesses", false, some "Bearer a1"⟩ 401 .httpError
        = ⟨signoutReducer ⟨⟨some "a1", none, true, true, some "a1"⟩, some "a1", none, none⟩,
           .rejectOriginal, false⟩ :=
  ⟨interceptor_single_refresh_and_signout.1
     ⟨⟨some "a1", some "r0", true, true, some "a1"⟩, some "a1", none, some "r0"⟩
     ⟨"/api/businesses", true, some "Bearer a1"⟩ .httpError (by decide) (by decide),
   interceptor_single_refresh_and_signout.2.2.2.1
     ⟨⟨some "a1", some "r0", true, true, some "a1"⟩, some "a1", none, some "r0"⟩
     ⟨"/api/businesses", false, some "Bearer a1"⟩ "r0" (by decide) (by decide) (by decide),
   interceptor_single_refresh_and_signout.2.2.2.2.1
     ⟨⟨some "a1", none, true, true, some "a1"⟩, some "a1", none, none⟩
     ⟨"/api/businesses", false, some "Bearer a1"⟩ .httpError (by decide) (by decide)
     (by decide)⟩

end TradeMaster
